import Mathlib

/-!
Verification of the scoring and impact engine of the construction-dashboard
backend (src/backend/main.py), embedded as pure functions over an in-memory
row store.

Modelling conventions:
* The Python floats appearing in this code only ever hold exact decimal
  constants, integers, and half-integers (an integral delay_weeks divided
  by 2), so every float computation in the modelled paths is exact and is
  embedded in the rationals.
* A datetime value is a rational number of days since 1970-01-01 00:00; the
  calendar date displayed for a datetime t is day number ⌊t⌋, rendered by
  formatDate (strftime with format "%b %d, %Y").
* Python int() truncates toward zero; this is pyInt below.
* The row store is a Store value. The one query round-trip of the scenario
  endpoint is modelled by an Except String input standing for the outcome of
  the round-trip, so that data-access failures are expressible.
-/

namespace Latso

/-- Python int() applied to a rational: truncation toward zero. -/
def pyInt (x : ℚ) : ℤ := if x < 0 then ⌈x⌉ else ⌊x⌋

/-- Civil-calendar conversion: day count since 1970-01-01 to (year, month, day). -/
def civilFromDays (z : ℤ) : ℤ × ℕ × ℕ :=
  let zs := z + 719468
  let era := Int.fdiv zs 146097
  let doe := (zs - era * 146097).toNat
  let yoe := (doe - doe / 1460 + doe / 36524 - doe / 146096) / 365
  let y := (yoe : ℤ) + era * 400
  let doy := doe - (365 * yoe + yoe / 4 - yoe / 100)
  let mp := (5 * doy + 2) / 153
  let d := doy - (153 * mp + 2) / 5 + 1
  let m := if mp < 10 then mp + 3 else mp - 9
  (if m ≤ 2 then y + 1 else y, m, d)

/-- Month abbreviations used by strftime %b in the C locale. -/
def monthAbbrev : ℕ → String
  | 1 => "Jan" | 2 => "Feb" | 3 => "Mar" | 4 => "Apr" | 5 => "May" | 6 => "Jun"
  | 7 => "Jul" | 8 => "Aug" | 9 => "Sep" | 10 => "Oct" | 11 => "Nov" | 12 => "Dec"
  | _ => ""

/-- Zero-padded two-digit rendering, strftime %d. -/
def pad2 (n : ℕ) : String := if n < 10 then "0" ++ toString n else toString n

/-- strftime "%b %d, %Y" applied to a day count since 1970-01-01. -/
def formatDate (z : ℤ) : String :=
  let c := civilFromDays z
  monthAbbrev c.2.1 ++ " " ++ pad2 c.2.2 ++ ", " ++ toString c.1

/-- Row of the risks table (fields consumed by the endpoints). -/
structure Risk where
  id : String
  work_package_id : String
  title : String
  impact_cost : ℚ
  impact_days : ℤ
  probability : ℤ
  risk_level : String
  reasoning : String
deriving DecidableEq

/-- Row of the vendor_alerts table. -/
structure VendorAlert where
  message : String
  severity : String
  is_active : Bool
deriving DecidableEq

/-- Row of the vendors table, with its joined alerts. -/
structure Vendor where
  id : String
  name : String
  performance_score : ℤ
  on_time_delivery : ℤ
  quality_score : ℤ
  cost_performance : ℤ
  communication_score : ℤ
  trend : String
  vendor_alerts : List VendorAlert
deriving DecidableEq

/-- Row of the work_packages table (fields consumed by the endpoints). -/
structure WorkPackage where
  id : String
  project_id : String
  name : String
  vendor_id : String
  risk_level : String
deriving DecidableEq

/-- Row of the projects table (fields consumed by the endpoints). -/
structure Project where
  id : String
  name : String
deriving DecidableEq

/-- The relational store backing the API. -/
structure Store where
  projects : List Project
  work_packages : List WorkPackage
  risks : List Risk
  vendors : List Vendor
deriving DecidableEq

/-- Request body of POST /api/scenario/analyze (pydantic model RiskAnalysis). -/
structure RiskAnalysis where
  work_package_id : String
  delay_weeks : ℤ
deriving DecidableEq

/-- Response body of POST /api/scenario/analyze (pydantic model ScenarioResult). -/
structure ScenarioResult where
  budget_impact : ℚ
  schedule_impact : ℤ
  completion_date : String
  risk_level : String
deriving DecidableEq

/-- Request body of POST /api/vendor/{vendor_id}/update-score (pydantic model VendorScore). -/
structure VendorScore where
  vendor_id : String
  on_time : ℤ
  quality : ℤ
  cost : ℤ
  communication : ℤ
deriving DecidableEq

/-- Transport-level error: HTTPException raised to the framework boundary. -/
structure HTTPError where
  status_code : ℕ
  detail : String
deriving DecidableEq

/-- Python exceptions that can be raised inside the try block of analyze_scenario:
the HTTPException(404) raised for a missing risk, or a data-access failure from
the store client. -/
inductive PyExc where
  | httpException (status_code : ℕ) (detail : String)
  | storeError (message : String)
deriving DecidableEq

/-- str(e) for the exceptions above; starlette renders an HTTPException as
"{status_code}: {detail}". -/
def PyExc.str : PyExc → String
  | .httpException s d => toString s ++ ": " ++ d
  | .storeError m => m

/-- Body of the try block of analyze_scenario (main.py lines 108-139). Either
returns a ScenarioResult or raises a Python exception: a storeError when the
risks query round-trip fails, the HTTPException 404 when the query returns no
row. -/
def analyze_scenario_body (now : ℚ) (queryResult : Except String (List Risk))
    (analysis : RiskAnalysis) : Except PyExc ScenarioResult :=
  match queryResult with
  | .error msg => .error (.storeError msg)
  | .ok data =>
    match data with
    | [] => .error (.httpException 404 "Risk not found")
    | base_risk :: _ =>
      let multiplier : ℚ := (analysis.delay_weeks : ℚ) / 2
      let new_budget_impact : ℚ := base_risk.impact_cost * multiplier
      let new_schedule_impact : ℚ := (base_risk.impact_days : ℚ) * multiplier
      let base_date : ℚ := now + 127
      let new_date : ℚ := base_date + new_schedule_impact
      let risk_level : String :=
        if analysis.delay_weeks > 3 then "CRITICAL"
        else if analysis.delay_weeks > 2 then "HIGH"
        else "MEDIUM"
      .ok { budget_impact := new_budget_impact
            schedule_impact := pyInt new_schedule_impact
            completion_date := formatDate ⌊new_date⌋
            risk_level := risk_level }

/-- POST /api/scenario/analyze (main.py lines 103-141). The except clause at
line 140 catches every Exception raised by the body, including the
HTTPException(404) for a missing risk, and re-raises it as a 500 response
whose detail prefixes the textual form of the caught exception with
"Analysis error: ". -/
def analyze_scenario (now : ℚ) (queryResult : Except String (List Risk))
    (analysis : RiskAnalysis) : Except HTTPError ScenarioResult :=
  match analyze_scenario_body now queryResult analysis with
  | .ok r => .ok r
  | .error e => .error { status_code := 500, detail := "Analysis error: " ++ e.str }

/-- The risks query of analyze_scenario against a healthy store: all rows whose
work_package_id equals the requested one, in store order. -/
def riskQuery (store : Store) (wpId : String) : List Risk :=
  store.risks.filter (fun r => r.work_package_id = wpId)

/-- analyze_scenario run against an in-memory store with a healthy connection. -/
def analyze_scenario_on_store (now : ℚ) (store : Store) (analysis : RiskAnalysis) :
    Except HTTPError ScenarioResult :=
  analyze_scenario now (.ok (riskQuery store analysis.work_package_id)) analysis

/-- The weighted sum computed identically at main.py lines 161-166 and 187-192.
The float weight constants 0.35, 0.25, 0.25, 0.15 are exact decimals here. -/
def compositeOfScores (on_time quality cost communication : ℤ) : ℚ :=
  (on_time : ℚ) * (35 / 100) + (quality : ℚ) * (25 / 100) +
    (cost : ℚ) * (25 / 100) + (communication : ℚ) * (15 / 100)

/-- The detailed_scores dict built at main.py lines 153-158. -/
structure DetailedScores where
  on_time : ℤ
  quality : ℤ
  cost : ℤ
  communication : ℤ
deriving DecidableEq

/-- One element of the GET /api/vendors response array. -/
structure VendorEntry where
  id : String
  name : String
  score : ℤ
  trend : String
  alerts : List String
  detailed_scores : DetailedScores
deriving DecidableEq

/-- The per-vendor body of the loop at main.py lines 151-175: recomputes the
composite from the four stored sub-scores and truncates it with int(). The
stored performance_score column is never read. -/
def vendorEntry (vendor : Vendor) : VendorEntry :=
  let composite_score := compositeOfScores vendor.on_time_delivery vendor.quality_score
    vendor.cost_performance vendor.communication_score
  { id := vendor.id
    name := vendor.name
    score := pyInt composite_score
    trend := vendor.trend
    alerts := (vendor.vendor_alerts.filter (fun a => a.is_active)).map (fun a => a.message)
    detailed_scores :=
      { on_time := vendor.on_time_delivery
        quality := vendor.quality_score
        cost := vendor.cost_performance
        communication := vendor.communication_score } }

/-- GET /api/vendors (main.py lines 143-179), run against a healthy store. -/
def get_vendor_performance (store : Store) : List VendorEntry :=
  store.vendors.map vendorEntry

/-- Response body of POST /api/vendor/{vendor_id}/update-score. -/
structure UpdateResult where
  success : Bool
  new_score : ℤ
deriving DecidableEq

/-- POST /api/vendor/{vendor_id}/update-score (main.py lines 181-205), run
against a healthy store. The update round-trip writes the four sub-scores and
the truncated composite to every vendors row whose id matches; when no row
matches, the store round-trip succeeds with zero rows affected and no
exception, so the endpoint still returns success. Returns the updated store
and the response body. -/
def update_vendor_score (store : Store) (vendor_id : String) (scores : VendorScore) :
    Store × UpdateResult :=
  let composite := compositeOfScores scores.on_time scores.quality scores.cost
    scores.communication
  let updated := { store with
    vendors := store.vendors.map (fun v =>
      if v.id = vendor_id then
        { v with
          on_time_delivery := scores.on_time
          quality_score := scores.quality
          cost_performance := scores.cost
          communication_score := scores.communication
          performance_score := pyInt composite }
      else v) }
  (updated, { success := true, new_score := pyInt composite })

/-- One element of the critical_items array built at main.py lines 85-92. -/
structure CriticalItem where
  title : String
  impact : String
  reasoning : String
deriving DecidableEq

/-- Round a rational to the nearest integer, ties to even: the rounding used
by the Python fixed-point float format. -/
def roundHalfEven (x : ℚ) : ℤ :=
  let f := ⌊x⌋
  let r := x - (f : ℚ)
  if r < 1 / 2 then f
  else if 1 / 2 < r then f + 1
  else if f % 2 = 0 then f else f + 1

/-- Python format specifier .1f: render with exactly one digit after the
decimal point. -/
def fmtOneDecimal (x : ℚ) : String :=
  let n := roundHalfEven (10 * x)
  if n < 0 then
    "-" ++ toString ((-n).toNat / 10) ++ "." ++ toString ((-n).toNat % 10)
  else
    toString (n.toNat / 10) ++ "." ++ toString (n.toNat % 10)

/-- The impact field of a critical item (main.py line 90): the cost in
millions to one decimal place and the delay in days. -/
def impactString (cost : ℚ) (days : ℤ) : String :=
  "$" ++ fmtOneDecimal (cost / 1000000) ++ "M cost, " ++ toString days ++ " days delay"

/-- Reshaping of one risk row into a critical item (main.py lines 88-92). -/
def criticalItem (r : Risk) : CriticalItem :=
  { title := r.title
    impact := impactString r.impact_cost r.impact_days
    reasoning := r.reasoning }

/-- The for loop at main.py lines 86-92: append the reshaped risk exactly when
its risk_level is HIGH. -/
def criticalItemsLoop (risks : List Risk) : List CriticalItem :=
  risks.foldl
    (fun acc risk =>
      if risk.risk_level = "HIGH" then acc ++ [criticalItem risk] else acc) []

/-- Stable insertion into a list held in descending impact_cost order: the new
element goes after every element of cost greater than or equal to its own. -/
def insertByCostDesc (r : Risk) : List Risk → List Risk
  | [] => [r]
  | x :: xs =>
    if x.impact_cost ≥ r.impact_cost then x :: insertByCostDesc r xs
    else r :: x :: xs

/-- The store ordering order(impact_cost, desc): stable descending sort. -/
def sortByCostDesc : List Risk → List Risk
  | [] => []
  | r :: rs => insertByCostDesc r (sortByCostDesc rs)

/-- GET /api/project/{project_id}/dashboard response shape: the project row,
the work packages of the project each with the joined vendor name, the
critical items, and a mock time_saved_today. -/
structure Dashboard where
  project : Option Project
  work_packages : List (WorkPackage × Option String)
  critical_items : List CriticalItem
  time_saved_today : String
deriving DecidableEq

/-- GET /api/project/{project_id}/dashboard (main.py lines 70-101), run against
a healthy store. The risks query at line 82 orders all risk rows of the store
by impact_cost descending and keeps the first 3; it carries no filter on the
requested project. -/
def get_dashboard (store : Store) (project_id : String) : Dashboard :=
  { project := store.projects.find? (fun p => p.id = project_id)
    work_packages :=
      (store.work_packages.filter (fun wp => wp.project_id = project_id)).map
        (fun wp => (wp, (store.vendors.find? (fun v => v.id = wp.vendor_id)).map
          (fun v => v.name)))
    critical_items := criticalItemsLoop ((sortByCostDesc store.risks).take 3)
    time_saved_today := "4.5 hrs" }

/-- budget_status of the executive brief. -/
structure BudgetStatus where
  remaining : ℤ
  at_risk : ℤ
deriving DecidableEq

/-- schedule_status of the executive brief. -/
structure ScheduleStatus where
  days_remaining : ℤ
  at_risk_days : ℤ
deriving DecidableEq

/-- Response body of POST /api/executive-brief/generate. The generated_at
field is datetime.now().isoformat(); it is modelled by the timestamp itself,
which the iso rendering determines injectively. -/
structure Brief where
  generated_at : ℚ
  generation_time : String
  time_saved : String
  project_health : String
  top_risks : List String
  recommendations : List String
  budget_status : BudgetStatus
  schedule_status : ScheduleStatus
deriving DecidableEq

/-- POST /api/executive-brief/generate (main.py lines 217-249): a hard-coded
structure except for generated_at, which records the invocation time. The
project_id input is never read. -/
def generate_executive_brief (now : ℚ) (project_id : String) : Brief :=
  { generated_at := now
    generation_time := "10 seconds"
    time_saved := "3 hours"
    project_health := "At Risk"
    top_risks :=
      [ "Electrical Package Performance: ABC Electrical showing 67% compliance"
      , "IT Infrastructure Delays: 34% completion vs 45% planned"
      , "HVAC Material Supply: 3-day delivery delays impacting schedule" ]
    recommendations :=
      [ "Implement dual-source procurement for electrical switchgear (+$180K)"
      , "Activate penalty clauses for ABC Electrical (triggers in 14 days)"
      , "Accelerate IT infrastructure contractor onboarding" ]
    budget_status := { remaining := 47200000, at_risk := 2300000 }
    schedule_status := { days_remaining := 127, at_risk_days := 18 } }

/-- Spec wording of the scenario risk tier (section 4.2 item 5, claim C5):
weeks at most 2 give MEDIUM, more than 2 and at most 3 give HIGH, more than 3
give CRITICAL. Stated independently of the endpoint for comparison. -/
def specRiskLevel (weeks : ℤ) : String :=
  if weeks ≤ 2 then "MEDIUM"
  else if weeks ≤ 3 then "HIGH"
  else "CRITICAL"

/-- Project that a risk belongs to, through its work package. -/
def riskProjectId (store : Store) (r : Risk) : Option String :=
  (store.work_packages.find? (fun wp => wp.id = r.work_package_id)).map
    (fun wp => wp.project_id)

/-- Claim C7 wording: critical items drawn from the top 3 risks by impact_cost
descending AMONG THE RISKS OF THE REQUESTED PROJECT, filtered to HIGH and
reshaped. Stated independently of the endpoint for comparison. -/
def claimedCriticalItems (store : Store) (project_id : String) : List CriticalItem :=
  (((sortByCostDesc (store.risks.filter
      (fun r => riskProjectId store r = some project_id))).take 3).filter
        (fun r => r.risk_level = "HIGH")).map criticalItem

/-! Concrete fixtures used by witnesses and counterexamples. -/

/-- The store with no rows at all. -/
def emptyStore : Store := { projects := [], work_packages := [], risks := [], vendors := [] }

/-- The seeded electrical risk (seed_data.py lines 200 to 211, fields used by
the endpoints). -/
def demoRisk : Risk :=
  { id := "r-elec"
    work_package_id := "wp-elec"
    title := "Electrical Package - Vendor Performance Decline"
    impact_cost := 2300000
    impact_days := 18
    probability := 85
    risk_level := "HIGH"
    reasoning := "ABC Electrical missed 3/5 recent milestones." }

/-- Scenario response for demoRisk at delay_weeks 4 from a midnight clock. -/
def demoResult4 : ScenarioResult :=
  { budget_impact := 4600000
    schedule_impact := 36
    completion_date := "Jun 13, 1970"
    risk_level := "CRITICAL" }

/-- Scenario response for demoRisk at delay_weeks 1 from a midnight clock. -/
def demoResult1w : ScenarioResult :=
  { budget_impact := 1150000
    schedule_impact := 9
    completion_date := "May 17, 1970"
    risk_level := "MEDIUM" }

/-- Scenario response for demoRisk at delay_weeks 2 from a midnight clock. -/
def demoResult2w : ScenarioResult :=
  { budget_impact := 2300000
    schedule_impact := 18
    completion_date := "May 26, 1970"
    risk_level := "MEDIUM" }

/-- A risk whose impact_days times a delay of one week is odd, exposing the
fractional half-day of the scaled schedule impact. -/
def oddRisk : Risk :=
  { id := "r-odd"
    work_package_id := "wp1"
    title := "Odd"
    impact_cost := 1
    impact_days := 1
    probability := 50
    risk_level := "HIGH"
    reasoning := "odd day count" }

/-- A store holding only oddRisk. -/
def oddStore : Store :=
  { projects := [], work_packages := [], risks := [oddRisk], vendors := [] }

/-- A vendor row with the four given sub-scores. -/
def mkVendor (o q c m : ℤ) : Vendor :=
  { id := "v1"
    name := "V"
    performance_score := 0
    on_time_delivery := o
    quality_score := q
    cost_performance := c
    communication_score := m
    trend := "stable"
    vendor_alerts := [] }

/-- The seeded ABC Electrical vendor row (seed_data.py lines 62 to 72). -/
def vendorABC : Vendor :=
  { id := "v-abc"
    name := "ABC Electrical"
    performance_score := 67
    on_time_delivery := 60
    quality_score := 80
    cost_performance := 65
    communication_score := 70
    trend := "down"
    vendor_alerts := [] }

/-- A store holding only vendorABC. -/
def oneVendorStore : Store :=
  { projects := [], work_packages := [], risks := [], vendors := [vendorABC] }

/-! Claim theorems. -/

/-- Claim C1: the spec says a scenario request whose work package has no risk
row fails with a Not-Found condition and never a generic error. In the code
the HTTPException with status 404 raised at main.py line 112 sits inside the
try block, so the blanket except at line 140 catches it and re-raises it as a
500 Analysis-Error response: the Not-Found condition never reaches the
caller. A plain data-access failure does fail with the Analysis-Error
condition carrying the underlying message, as the second part of the claim
says. -/
theorem analyze_scenario_missing_risk_yields_500 :
    (analyze_scenario_on_store 0 emptyStore
        { work_package_id := "wp-missing", delay_weeks := 2 }
      = .error { status_code := 500, detail := "Analysis error: 404: Risk not found" })
    ∧ ∀ msg : String,
        analyze_scenario 0 (.error msg) { work_package_id := "wp-missing", delay_weeks := 2 }
          = .error { status_code := 500, detail := "Analysis error: " ++ msg } := by
  constructor
  · with_unfolding_all rfl
  · intro msg
    rfl

/-- Claim C4: for every base risk and integer delay_weeks, a successful
scenario analysis returns budget_impact equal to impact_cost times
delay_weeks / 2 as an exact number and schedule_impact equal to impact_days
times delay_weeks / 2 truncated toward zero. -/
theorem analyze_scenario_impacts (now : ℚ) (base : Risk) (rest : List Risk)
    (a : RiskAnalysis) (r : ScenarioResult)
    (h : analyze_scenario now (.ok (base :: rest)) a = .ok r) :
    r.budget_impact = base.impact_cost * ((a.delay_weeks : ℚ) / 2)
    ∧ r.schedule_impact = pyInt ((base.impact_days : ℚ) * ((a.delay_weeks : ℚ) / 2)) := by
  simp only [analyze_scenario, analyze_scenario_body] at h
  rw [Except.ok.injEq] at h
  subst h
  exact ⟨rfl, rfl⟩

/-- Witness for C4: the seeded risk with impact_cost 2300000 and impact_days
18 at delay_weeks 4 answers exactly demoResult4, whose budget_impact is
4600000, schedule_impact 36 and risk_level CRITICAL. -/
theorem analyze_scenario_impacts_witness :
    (analyze_scenario 0 (.ok [demoRisk]) { work_package_id := "wp-elec", delay_weeks := 4 }
      = .ok demoResult4)
    ∧ demoResult4.budget_impact = demoRisk.impact_cost * (((4 : ℤ) : ℚ) / 2)
    ∧ demoResult4.schedule_impact = pyInt ((demoRisk.impact_days : ℚ) * (((4 : ℤ) : ℚ) / 2))
    ∧ demoResult4.budget_impact = 4600000
    ∧ demoResult4.schedule_impact = 36
    ∧ demoResult4.risk_level = "CRITICAL" := by
  have h : analyze_scenario 0 (.ok [demoRisk])
      { work_package_id := "wp-elec", delay_weeks := 4 } = .ok demoResult4 := by
    with_unfolding_all rfl
  have h2 := analyze_scenario_impacts 0 demoRisk []
    { work_package_id := "wp-elec", delay_weeks := 4 } demoResult4 h
  exact ⟨h, h2.1, h2.2, rfl, rfl, rfl⟩

/-- Claim C5: for every successful scenario analysis, whatever the clock, the
query outcome and the base risk, the returned risk_level is the spec step
function of the requested delay_weeks alone: MEDIUM up to 2 weeks, HIGH above
2 and up to 3, CRITICAL above 3; and it is never LOW. -/
theorem analyze_scenario_risk_level_step (now : ℚ) (q : Except String (List Risk))
    (a : RiskAnalysis) (r : ScenarioResult)
    (h : analyze_scenario now q a = .ok r) :
    r.risk_level = specRiskLevel a.delay_weeks ∧ r.risk_level ≠ "LOW" := by
  cases q with
  | error msg => simp [analyze_scenario, analyze_scenario_body] at h
  | ok data =>
    cases data with
    | nil => simp [analyze_scenario, analyze_scenario_body] at h
    | cons base rest =>
      simp only [analyze_scenario, analyze_scenario_body] at h
      rw [Except.ok.injEq] at h
      subst h
      constructor
      · show (if a.delay_weeks > 3 then "CRITICAL"
            else if a.delay_weeks > 2 then "HIGH" else "MEDIUM")
          = specRiskLevel a.delay_weeks
        simp only [specRiskLevel]
        split_ifs <;> first | rfl | (exfalso; omega)
      · show (if a.delay_weeks > 3 then "CRITICAL"
            else if a.delay_weeks > 2 then "HIGH" else "MEDIUM") ≠ "LOW"
        split_ifs <;> decide

/-- Witness for C5 at the seeded risk and delay_weeks 4. -/
theorem analyze_scenario_risk_level_step_witness :
    demoResult4.risk_level = specRiskLevel 4 ∧ demoResult4.risk_level ≠ "LOW" :=
  analyze_scenario_risk_level_step 0 (.ok [demoRisk])
    { work_package_id := "wp-elec", delay_weeks := 4 } demoResult4
    (by with_unfolding_all rfl)

/-- Claim C6: scenario budget impact is linear in the requested delay: for the
same base risk and any positive integer delay w, the budget impact computed
for delay 2w equals exactly twice the one computed for delay w. -/
theorem analyze_scenario_budget_linear (now now2 : ℚ) (base : Risk)
    (rest rest2 : List Risk) (wp wp2 : String) (w : ℤ) (hw : 0 < w)
    (r1 r2 : ScenarioResult)
    (h1 : analyze_scenario now (.ok (base :: rest))
      { work_package_id := wp, delay_weeks := w } = .ok r1)
    (h2 : analyze_scenario now2 (.ok (base :: rest2))
      { work_package_id := wp2, delay_weeks := 2 * w } = .ok r2) :
    r2.budget_impact = 2 * r1.budget_impact := by
  simp only [analyze_scenario, analyze_scenario_body] at h1 h2
  rw [Except.ok.injEq] at h1
  rw [Except.ok.injEq] at h2
  subst h1
  subst h2
  show base.impact_cost * (((2 * w : ℤ) : ℚ) / 2)
    = 2 * (base.impact_cost * ((w : ℚ) / 2))
  push_cast
  ring

/-- Witness for C6 at the seeded risk with w = 1: delay 2 gives twice the
budget impact of delay 1. -/
theorem analyze_scenario_budget_linear_witness :
    demoResult2w.budget_impact = 2 * demoResult1w.budget_impact :=
  analyze_scenario_budget_linear 0 0 demoRisk [] [] "wp-elec" "wp-elec" 1
    (by norm_num) demoResult1w demoResult2w
    (by with_unfolding_all rfl) (by with_unfolding_all rfl)

/-- Claim C2 counterexample: the code hands the un-truncated scaled days to
the date shift. With the clock at noon of day 0 (1970-01-01 12:00),
impact_days 1 and delay_weeks 1 the endpoint displays May 09, 1970, which is
day 128, while today + 127 days + floor of the scaled days is day 127,
May 08, 1970. Moreover with delay_weeks -1 the surfaced schedule_impact is
int(-0.5) = 0 while the floor of the scaled days is -1, so schedule_impact is
not the floor either. -/
theorem analyze_scenario_completion_date_cex :
    (analyze_scenario_on_store (1 / 2) oddStore
        { work_package_id := "wp1", delay_weeks := 1 }).map
      (fun r => r.completion_date) = .ok "May 09, 1970"
    ∧ formatDate (⌊(1 / 2 : ℚ)⌋ + 127 + ⌊((1 : ℤ) : ℚ) * (((1 : ℤ) : ℚ) / 2)⌋)
      = "May 08, 1970"
    ∧ (analyze_scenario_on_store 0 oddStore
        { work_package_id := "wp1", delay_weeks := -1 }).map
      (fun r => r.schedule_impact) = .ok 0
    ∧ ⌊((1 : ℤ) : ℚ) * (((-1 : ℤ) : ℚ) / 2)⌋ = -1 := by
  refine ⟨?_, ?_, ?_, ?_⟩ <;> with_unfolding_all rfl

/-- Claim C2 amended: a successful scenario analysis displays the calendar
date of now + 127 days + impact_days * delay_weeks / 2 days, the fractional
part of the scaled days being added to the datetime before the calendar date
is taken; schedule_impact is the scaled days truncated toward zero; and when
impact_days * delay_weeks is an even number 2k the displayed day is exactly
today + 127 + k, so the seeded example (impact_days 18, delay_weeks 4) gives
completion_date = today + 163 days. -/
theorem analyze_scenario_completion_date (now : ℚ) (base : Risk) (rest : List Risk)
    (a : RiskAnalysis) (r : ScenarioResult)
    (h : analyze_scenario now (.ok (base :: rest)) a = .ok r) :
    r.completion_date
      = formatDate ⌊now + 127 + (base.impact_days : ℚ) * ((a.delay_weeks : ℚ) / 2)⌋
    ∧ r.schedule_impact = pyInt ((base.impact_days : ℚ) * ((a.delay_weeks : ℚ) / 2))
    ∧ ∀ k : ℤ, base.impact_days * a.delay_weeks = 2 * k →
        ⌊now + 127 + (base.impact_days : ℚ) * ((a.delay_weeks : ℚ) / 2)⌋
          = ⌊now⌋ + 127 + k := by
  simp only [analyze_scenario, analyze_scenario_body] at h
  rw [Except.ok.injEq] at h
  subst h
  refine ⟨?_, rfl, ?_⟩
  · show formatDate ⌊now + 127 + (base.impact_days : ℚ) * ((a.delay_weeks : ℚ) / 2)⌋
      = formatDate ⌊now + 127 + (base.impact_days : ℚ) * ((a.delay_weeks : ℚ) / 2)⌋
    rfl
  · intro k hk
    have h2 : (base.impact_days : ℚ) * (a.delay_weeks : ℚ) = 2 * (k : ℚ) := by
      exact_mod_cast hk
    have h3 : (base.impact_days : ℚ) * ((a.delay_weeks : ℚ) / 2) = (k : ℚ) := by
      calc (base.impact_days : ℚ) * ((a.delay_weeks : ℚ) / 2)
          = (base.impact_days : ℚ) * (a.delay_weeks : ℚ) / 2 := by ring
        _ = 2 * (k : ℚ) / 2 := by rw [h2]
        _ = (k : ℚ) := by ring
    rw [h3]
    rw [show now + 127 + (k : ℚ) = now + ((127 + k : ℤ) : ℚ) by push_cast; ring]
    rw [Int.floor_add_int]
    omega

/-- Witness for the amended C2 at the seeded risk, midnight clock and
delay_weeks 4: the displayed date is day 0 + 127 + 36 = day 163,
Jun 13, 1970. -/
theorem analyze_scenario_completion_date_witness :
    demoResult4.completion_date
      = formatDate ⌊(0 : ℚ) + 127 + ((18 : ℤ) : ℚ) * (((4 : ℤ) : ℚ) / 2)⌋
    ∧ demoResult4.schedule_impact = pyInt (((18 : ℤ) : ℚ) * (((4 : ℤ) : ℚ) / 2))
    ∧ ⌊(0 : ℚ) + 127 + ((18 : ℤ) : ℚ) * (((4 : ℤ) : ℚ) / 2)⌋ = ⌊(0 : ℚ)⌋ + 127 + 36
    ∧ demoResult4.completion_date = "Jun 13, 1970" := by
  have h := analyze_scenario_completion_date 0 demoRisk []
    { work_package_id := "wp-elec", delay_weeks := 4 } demoResult4
    (by with_unfolding_all rfl)
  exact ⟨h.1, h.2.1, h.2.2 36 (by decide), rfl⟩

/-- Claim C3 counterexample: at sub-scores (-1, 0, 0, 0) the weighted sum is
-0.35, whose floor is -1, but both the vendors listing and the score update
surface int(-0.35) = 0: the cast truncates toward zero, it does not floor. -/
theorem composite_floor_cex :
    (update_vendor_score emptyStore "v1"
        { vendor_id := "v1", on_time := -1, quality := 0, cost := 0, communication := 0 }).2
      = { success := true, new_score := 0 }
    ∧ (get_vendor_performance { emptyStore with vendors := [mkVendor (-1) 0 0 0] }).map
        (fun e => e.score) = [0]
    ∧ ⌊compositeOfScores (-1) 0 0 0⌋ = -1 := by
  refine ⟨?_, ?_, ?_⟩ <;> with_unfolding_all rfl

/-- Claim C3 amended: for all integer sub-scores, both the vendors listing
and the score update surface the weighted sum
0.35 o + 0.25 q + 0.25 c + 0.15 m truncated toward zero; truncation agrees
with floor whenever the weighted sum is nonnegative (so on the conventional
0 to 100 range); a weighted sum of 74.999 is surfaced as 74, and the boundary
examples give (0,0,0,0) to 0, (100,100,100,100) to 100, (100,0,0,0) to 35. -/
theorem composite_truncated_weighted_sum (o q c m : ℤ) :
    (∀ store vid, (update_vendor_score store vid
        { vendor_id := vid, on_time := o, quality := q, cost := c, communication := m }).2
      = { success := true, new_score := pyInt (compositeOfScores o q c m) })
    ∧ (vendorEntry (mkVendor o q c m)).score = pyInt (compositeOfScores o q c m)
    ∧ (0 ≤ compositeOfScores o q c m →
        pyInt (compositeOfScores o q c m) = ⌊compositeOfScores o q c m⌋)
    ∧ pyInt ((74999 : ℚ) / 1000) = 74
    ∧ pyInt (compositeOfScores 0 0 0 0) = 0
    ∧ pyInt (compositeOfScores 100 100 100 100) = 100
    ∧ pyInt (compositeOfScores 100 0 0 0) = 35 := by
  refine ⟨fun store vid => rfl, rfl, ?_, ?_, ?_, ?_, ?_⟩
  · intro h
    rw [pyInt, if_neg (not_lt.mpr h)]
  · with_unfolding_all rfl
  · with_unfolding_all rfl
  · with_unfolding_all rfl
  · with_unfolding_all rfl

/-- Witness for the amended C3 at (100, 0, 0, 0): the update answers 35 and
truncation agrees with floor there. -/
theorem composite_truncated_weighted_sum_witness :
    (update_vendor_score emptyStore "v1"
        { vendor_id := "v1", on_time := 100, quality := 0, cost := 0, communication := 0 }).2
      = { success := true, new_score := pyInt (compositeOfScores 100 0 0 0) }
    ∧ pyInt (compositeOfScores 100 0 0 0) = ⌊compositeOfScores 100 0 0 0⌋ := by
  refine ⟨(composite_truncated_weighted_sum 100 0 0 0).1 emptyStore "v1",
    (composite_truncated_weighted_sum 100 0 0 0).2.2.1 ?_⟩
  norm_num [compositeOfScores]

/-- Helper: the append-if loop over any risk list is the HIGH filter followed
by the reshape. -/
theorem criticalItemsLoop_eq_filterMap (l : List Risk) :
    criticalItemsLoop l
      = (l.filter (fun r => r.risk_level = "HIGH")).map criticalItem := by
  suffices h : ∀ acc : List CriticalItem,
      l.foldl (fun acc risk =>
          if risk.risk_level = "HIGH" then acc ++ [criticalItem risk] else acc) acc
        = acc ++ (l.filter (fun r => r.risk_level = "HIGH")).map criticalItem by
    simpa [criticalItemsLoop] using h []
  induction l with
  | nil => intro acc; simp
  | cons r rs ih =>
    intro acc
    by_cases hr : r.risk_level = "HIGH" <;>
      simp [List.foldl_cons, hr, ih, List.filter_cons]

/-- A store whose only risk belongs to project p2, while the dashboard is
requested for project p1. -/
def crossProjectStore : Store :=
  { projects := [{ id := "p1", name := "P1" }]
    work_packages :=
      [ { id := "wp1", project_id := "p1", name := "W1", vendor_id := "v1",
          risk_level := "LOW" }
      , { id := "wp2", project_id := "p2", name := "W2", vendor_id := "v1",
          risk_level := "HIGH" } ]
    risks :=
      [ { id := "r2", work_package_id := "wp2", title := "Cross-project risk",
          impact_cost := 9000000, impact_days := 10, probability := 80,
          risk_level := "HIGH", reasoning := "other project" } ]
    vendors := [] }

/-- Claim C7 counterexample: the risks query of the dashboard carries no
project filter. The only risk of crossProjectStore belongs to project p2, yet
the dashboard requested for p1 lists it among critical_items; under the
claimed top-3-of-the-requested-project reading the list would be empty. -/
theorem dashboard_critical_items_cex :
    (get_dashboard crossProjectStore "p1").critical_items
      = [{ title := "Cross-project risk", impact := "$9.0M cost, 10 days delay",
           reasoning := "other project" }]
    ∧ claimedCriticalItems crossProjectStore "p1" = [] := by
  constructor <;> with_unfolding_all rfl

/-- Claim C7 amended: for every store state and requested project, the
critical_items of the dashboard are exactly the risks of level HIGH among the
top 3 risks of the WHOLE store by impact_cost descending, irrespective of the
requested project, each reshaped with the impact cost in millions to one
decimal place. -/
theorem dashboard_critical_items (store : Store) (project_id : String) :
    (get_dashboard store project_id).critical_items
      = (((sortByCostDesc store.risks).take 3).filter
          (fun r => r.risk_level = "HIGH")).map criticalItem := by
  show criticalItemsLoop ((sortByCostDesc store.risks).take 3)
    = (((sortByCostDesc store.risks).take 3).filter
        (fun r => r.risk_level = "HIGH")).map criticalItem
  exact criticalItemsLoop_eq_filterMap _

/-- Claim C8 counterexample: two invocations at different times return
different structures, because generated_at records the invocation time; the
operation is not a single fixed structure across invocations. -/
theorem executive_brief_cex :
    generate_executive_brief 0 "p1" ≠ generate_executive_brief 1 "p1" := by
  intro h
  have h0 : (0 : ℚ) = 1 := congrArg Brief.generated_at h
  norm_num at h0

/-- Claim C8 amended: the brief ignores its project_id input entirely, and at
any fixed invocation time it is one fixed structure: every field except
generated_at is a constant, and generated_at equals the invocation time. -/
theorem executive_brief_ignores_input (t : ℚ) (p p2 : String) :
    generate_executive_brief t p = generate_executive_brief t p2
    ∧ (generate_executive_brief t p).generated_at = t
    ∧ generate_executive_brief t p
      = { generate_executive_brief 0 p2 with generated_at := t } :=
  ⟨rfl, rfl, rfl⟩

/-- Overwrite only the stored composite column of a vendor row. -/
def setPerformanceScore (v : Vendor) (p : ℤ) : Vendor := { v with performance_score := p }

/-- Claim C9: the score listed for each vendor is recomputed from the four
stored sub-scores and never reads the stored performance_score column:
overwriting that column with any value changes nothing in the listing, and
the listed score is the truncated weighted sum of the sub-scores. -/
theorem vendor_listing_ignores_stored_composite (store : Store) (v : Vendor) (p : ℤ) :
    vendorEntry (setPerformanceScore v p) = vendorEntry v
    ∧ (vendorEntry v).score
      = pyInt (compositeOfScores v.on_time_delivery v.quality_score
          v.cost_performance v.communication_score)
    ∧ get_vendor_performance
        { store with vendors := store.vendors.map (fun u => setPerformanceScore u p) }
      = get_vendor_performance store := by
  refine ⟨rfl, rfl, ?_⟩
  show (store.vendors.map (fun u => setPerformanceScore u p)).map vendorEntry
    = store.vendors.map vendorEntry
  rw [List.map_map]
  rfl

/-- Helper: the conditional row update maps to the identity on a vendor list
none of whose rows carries the targeted id. -/
theorem map_update_id (vid : String) (s : VendorScore) :
    ∀ l : List Vendor, (∀ v ∈ l, v.id ≠ vid) →
      l.map (fun v =>
        if v.id = vid then
          { v with
            on_time_delivery := s.on_time
            quality_score := s.quality
            cost_performance := s.cost
            communication_score := s.communication
            performance_score := pyInt (compositeOfScores s.on_time s.quality s.cost
              s.communication) }
        else v) = l := by
  intro l
  induction l with
  | nil => intro _; rfl
  | cons x xs ih =>
    intro h
    have hx : ¬ x.id = vid := h x (List.mem_cons_self x xs)
    simp only [List.map_cons, if_neg hx]
    rw [ih (fun v hv => h v (List.mem_cons_of_mem x hv))]

/-- Claim C10: the score update answers success true with the composite of
the four submitted sub-scores for every store state and every vendor_id,
whether or not a vendor row with that id exists; when no row matches, the
update is a no-op on the store and still no error and no Not-Found is
produced. -/
theorem update_vendor_score_no_not_found (store : Store) (vid : String) (s : VendorScore) :
    (update_vendor_score store vid s).2
      = { success := true,
          new_score := pyInt (compositeOfScores s.on_time s.quality s.cost s.communication) }
    ∧ ((∀ v ∈ store.vendors, v.id ≠ vid) → (update_vendor_score store vid s).1 = store) := by
  refine ⟨rfl, fun hn => ?_⟩
  have h1 : (update_vendor_score store vid s).1
      = { store with vendors := store.vendors.map (fun v =>
            if v.id = vid then
              { v with
                on_time_delivery := s.on_time
                quality_score := s.quality
                cost_performance := s.cost
                communication_score := s.communication
                performance_score := pyInt (compositeOfScores s.on_time s.quality s.cost
                  s.communication) }
            else v) } := rfl
  rw [h1, map_update_id vid s store.vendors hn]

/-- Witness for C10: updating the absent id ghost in a store holding only the
ABC vendor row answers success with score 67 and leaves the store unchanged. -/
theorem update_vendor_score_no_not_found_witness :
    (update_vendor_score oneVendorStore "ghost"
        { vendor_id := "ghost", on_time := 60, quality := 80, cost := 65,
          communication := 70 }).2
      = { success := true, new_score := pyInt (compositeOfScores 60 80 65 70) }
    ∧ (update_vendor_score oneVendorStore "ghost"
        { vendor_id := "ghost", on_time := 60, quality := 80, cost := 65,
          communication := 70 }).1
      = oneVendorStore
    ∧ pyInt (compositeOfScores 60 80 65 70) = 67 := by
  have h := update_vendor_score_no_not_found oneVendorStore "ghost"
    { vendor_id := "ghost", on_time := 60, quality := 80, cost := 65, communication := 70 }
  refine ⟨h.1, h.2 ?_, by with_unfolding_all rfl⟩
  intro v hv
  have hv2 : v = vendorABC := by
    simpa [oneVendorStore] using hv
  subst hv2
  decide

end Latso
